import Mathlib

/-!
Verification development for the CBC lesson-plan generator backend
(`main.py`).  The curriculum resolution subsystem is embedded shallowly:

* `fuzz_ratio` models `rapidfuzz.fuzz.ratio`: the normalized indel
  similarity `100 * 2 * LCS(a,b) / (|a| + |b|)`, computed exactly in `ℚ`.
* `extractOne` models `rapidfuzz.process.extractOne` (default cutoff):
  it returns the first option attaining the maximal score.
* `find_best_match`, `load_curriculum`, `extract_curriculum_content`,
  `get_subject_guidance` and the `has_curriculum_data` flag are direct
  translations of the Python functions of the same names.  The on-disk
  store is modelled as an association list from file names to file
  contents (`valid` parsed curriculum or `invalid` malformed data).
-/

/-! ## Longest common subsequence (dynamic programming, one row at a time) -/

def lcsRowAux (a : Char) : List Char → List Nat → Nat → Nat → List Nat
  | [], _, _, _ => []
  | b :: bs, prev, diag, left =>
    let up := prev.headD 0
    let cur := if a == b then diag + 1 else max left up
    cur :: lcsRowAux a bs prev.tail up cur

def lcsFold (bs : List Char) (row : List Nat) (a : Char) : List Nat :=
  0 :: lcsRowAux a bs (row.drop 1) (row.headD 0) 0

/-- Length of the longest common subsequence of two character lists. -/
def lcs (as bs : List Char) : Nat :=
  (as.foldl (lcsFold bs) (List.replicate (bs.length + 1) 0)).getLastD 0

/-- Fuel-based Euclidean gcd.  `Nat.gcd` is defined by well-founded
recursion and does not reduce inside the kernel; this structurally
recursive version does, which keeps every score computation decidable
by `decide`.  `gcdF fuel m n = Nat.gcd m n` whenever `m ≤ fuel`. -/
def gcdF : Nat → Nat → Nat → Nat
  | 0, _, n => n
  | fuel + 1, m, n => if m = 0 then n else gcdF fuel (n % m) m

theorem gcdF_eq : ∀ fuel m n : Nat, m ≤ fuel → gcdF fuel m n = Nat.gcd m n := by
  intro fuel
  induction fuel with
  | zero =>
    intro m n h
    have hm : m = 0 := Nat.le_zero.mp h
    subst hm
    simp [gcdF]
  | succ fuel ih =>
    intro m n h
    by_cases hm : m = 0
    · subst hm; simp [gcdF]
    · have hlt : n % m < m := Nat.mod_lt n (Nat.pos_of_ne_zero hm)
      rw [show gcdF (fuel + 1) m n = if m = 0 then n else gcdF fuel (n % m) m from rfl,
        if_neg hm, ih (n % m) m (by omega)]
      exact (Nat.gcd_rec m n).symm

/-- The rational `n / d` for natural `n` and positive natural `d`,
built in lowest terms via the kernel-reducible `gcdF` so that
comparisons of scores evaluate by `decide`. -/
def ratDivNat (n d : Nat) (hd : d ≠ 0) : ℚ :=
  ⟨((n / gcdF n n d : Nat) : Int), d / gcdF n n d,
    by
      rw [gcdF_eq n n d le_rfl]
      have hg : Nat.gcd n d ≠ 0 := fun h => hd (Nat.eq_zero_of_gcd_eq_zero_right h)
      have hle : Nat.gcd n d ≤ d :=
        Nat.le_of_dvd (Nat.pos_of_ne_zero hd) (Nat.gcd_dvd_right n d)
      exact Nat.pos_iff_ne_zero.mp (Nat.div_pos hle (Nat.pos_of_ne_zero hg)),
    by
      rw [Int.natAbs_ofNat, gcdF_eq n n d le_rfl]
      exact Nat.coprime_div_gcd_div_gcd
        (Nat.pos_of_ne_zero fun h => hd (Nat.eq_zero_of_gcd_eq_zero_right h))⟩

theorem ratDivNat_eq (n d : Nat) (hd : d ≠ 0) :
    ratDivNat n d hd = (n : ℚ) / (d : ℚ) := by
  unfold ratDivNat
  have hgcd : gcdF n n d = Nat.gcd n d := gcdF_eq n n d le_rfl
  have hg : Nat.gcd n d ≠ 0 := fun h => hd (Nat.eq_zero_of_gcd_eq_zero_right h)
  rw [Rat.mk'_eq_divInt, Rat.divInt_eq_div]
  have hd2 : ((d : ℚ)) ≠ 0 := Nat.cast_ne_zero.mpr hd
  have hdg : ((d / gcdF n n d : Nat) : ℚ) ≠ 0 := by
    rw [hgcd]
    exact Nat.cast_ne_zero.mpr
      (Nat.pos_iff_ne_zero.mp (Nat.div_pos
        (Nat.le_of_dvd (Nat.pos_of_ne_zero hd) (Nat.gcd_dvd_right n d))
        (Nat.pos_of_ne_zero hg)))
  have hnat : (n / gcdF n n d) * d = n * (d / gcdF n n d) := by
    rw [hgcd, Nat.mul_comm (n / Nat.gcd n d) d,
      ← Nat.mul_div_assoc d (Nat.gcd_dvd_left n d),
      ← Nat.mul_div_assoc n (Nat.gcd_dvd_right n d), Nat.mul_comm d n]
  have hq : ((n / gcdF n n d : Nat) : ℚ) / ((d / gcdF n n d : Nat) : ℚ) =
      (n : ℚ) / (d : ℚ) := by
    rw [div_eq_div_iff hdg hd2]
    exact_mod_cast congrArg (fun x : Nat => (x : ℚ)) hnat
  simp only [Int.cast_natCast]
  exact hq

/-- Model of `rapidfuzz.fuzz.ratio`: normalized indel similarity on the
0–100 scale, `100 * (1 - dist/(|a|+|b|)) = 200 * LCS / (|a|+|b|)`,
with the convention that two empty strings are 100% similar. -/
def fuzz_ratio (a b : String) : ℚ :=
  if h : a.length + b.length = 0 then 100
  else ratDivNat (200 * lcs a.toList b.toList) (a.length + b.length) h

/-- Sanity bridge: `fuzz_ratio` is exactly the division
`200 * LCS / (|a| + |b|)`. -/
theorem fuzz_ratio_eq_div (a b : String) :
    fuzz_ratio a b =
      if a.length + b.length = 0 then 100
      else (200 * (lcs a.toList b.toList : ℚ)) / ((a.length : ℚ) + (b.length : ℚ)) := by
  unfold fuzz_ratio
  by_cases h : a.length + b.length = 0
  · rw [dif_pos h, if_pos h]
  · rw [dif_neg h, if_neg h, ratDivNat_eq]
    push_cast
    ring_nf

/-! ## `process.extractOne` and `find_best_match` (main.py lines 371–383) -/

/-- Model of `rapidfuzz.process.extractOne` with the default score
cutoff: scans the options left to right and keeps the first option
attaining the maximal score (later options replace the current best
only on a strictly greater score). -/
def extractOne (score : String → String → ℚ) (query : String) :
    List String → Option (String × ℚ)
  | [] => none
  | o :: rest =>
    match extractOne score query rest with
    | none => some (o, score query o)
    | some (b, s) => if s ≤ score query o then some (o, score query o) else some (b, s)

/-- Translation of `find_best_match(query, options, threshold)`
(main.py lines 371–383), with the scorer passed explicitly; every call
site in the source uses `fuzz.ratio`, i.e. `fuzz_ratio` here. -/
def find_best_match (score : String → String → ℚ) (query : String)
    (options : List String) (threshold : ℚ) : Option String :=
  if query = "" ∨ options = [] then none
  else
    match extractOne score query options with
    | some (best, s) => if threshold ≤ s then some best else none
    | none => none

/-! ## String helpers (models of the Python `str` methods used) -/

/-- Model of Python `str.lower` for the subject names handled here. -/
def strToLower (s : String) : String := String.mk (s.toList.map Char.toLower)

/-- Model of Python `str.strip`. -/
def strTrim (s : String) : String :=
  String.mk (((s.toList.dropWhile Char.isWhitespace).reverse.dropWhile Char.isWhitespace).reverse)

/-- Model of Python `str.endswith`. -/
def strEndsWith (s suffix : String) : Bool := suffix.toList.isSuffixOf s.toList

def replaceAllAux (pat rep : List Char) : Nat → List Char → List Char
  | _, [] => []
  | 0, s => s
  | fuel + 1, c :: cs =>
    if pat.isPrefixOf (c :: cs) && !pat.isEmpty then
      rep ++ replaceAllAux pat rep fuel ((c :: cs).drop pat.length)
    else c :: replaceAllAux pat rep fuel cs

/-- Model of Python `str.replace`: replaces every non-overlapping
occurrence of `pat`, scanning left to right. -/
def strReplace (s pat rep : String) : String :=
  String.mk (replaceAllAux pat.toList rep.toList s.toList.length s.toList)

/-! ## Curriculum data model (shape of the JSON documents, main.py §3) -/

/-- A sub-strand entry of a curriculum document.  Each field mirrors a
JSON key read with `.get(...)`; `name` is `Option` because the key may
be absent (Python `.get("name")` yields `None`), the remaining fields
default to the empty value the code supplies to `.get`. -/
structure SubStrand where
  name : Option String
  topics : List String := []
  specific_learning_outcomes : List String := []
  key_concepts : String := ""
  key_inquiry_questions : List String := []
  suggested_learning_experiences : List String := []
  core_competencies : List String := []
  values : List String := []
deriving DecidableEq, Repr, Inhabited

structure Strand where
  name : Option String
  sub_strands : List SubStrand := []
deriving DecidableEq, Repr, Inhabited

structure Curriculum where
  strands : List Strand := []
deriving DecidableEq, Repr, Inhabited

/-- The dictionary returned by `extract_curriculum_content`
(main.py lines 424–506); every key is always present. -/
structure ResolvedContent where
  strand : String
  sub_strand : String
  topics : List String
  learning_outcomes : List String
  key_concepts : String
  key_inquiry_questions : List String
  suggested_experiences : List String
  core_competencies : List String
  values : List String
deriving DecidableEq, Repr, Inhabited

/-- The fallback dictionary `empty_structure` (main.py lines 424–434). -/
def empty_structure (strand_name sub_strand_name : String) : ResolvedContent :=
  { strand := strand_name
    sub_strand := sub_strand_name
    topics := []
    learning_outcomes := []
    key_concepts := ""
    key_inquiry_questions := []
    suggested_experiences := []
    core_competencies := []
    values := [] }

/-- The dictionary returned when the strand matched but the sub-strand
did not (main.py lines 464–474 and 483–493; the source repeats this
literal twice). -/
def strand_only_structure (best_strand_match sub_strand_name : String) : ResolvedContent :=
  { strand := best_strand_match
    sub_strand := sub_strand_name
    topics := []
    learning_outcomes := []
    key_concepts := ""
    key_inquiry_questions := []
    suggested_experiences := []
    core_competencies := []
    values := [] }

/-- The dictionary returned on a full match (main.py lines 496–506). -/
def resolved_structure (best_strand_match best_substrand_match : String)
    (mss : SubStrand) : ResolvedContent :=
  { strand := best_strand_match
    sub_strand := best_substrand_match
    topics := mss.topics
    learning_outcomes := mss.specific_learning_outcomes
    key_concepts := mss.key_concepts
    key_inquiry_questions := mss.key_inquiry_questions
    suggested_experiences := mss.suggested_learning_experiences
    core_competencies := mss.core_competencies
    values := mss.values }

/-- Translation of the list comprehension
`[strand.get("name", "") for strand in strands if strand.get("name")]`
(main.py line 444): names of the strands whose `name` key is present and
non-empty (Python truthiness). -/
def strandNames (strands : List Strand) : List String :=
  (strands.filter fun s => s.name.getD "" ≠ "").map fun s => s.name.getD ""

/-- Translation of the list comprehension
`[ss.get("name", "") for ss in sub_strands if ss.get("name")]`
(main.py line 460). -/
def subStrandNames (sub_strands : List SubStrand) : List String :=
  (sub_strands.filter fun ss => ss.name.getD "" ≠ "").map fun ss => ss.name.getD ""

/-- The strand-level fuzzy match of `extract_curriculum_content`
(main.py line 445): threshold 70. -/
def bestStrand (c : Curriculum) (strand_name : String) : Option String :=
  find_best_match fuzz_ratio strand_name (strandNames c.strands) 70

/-- The sub-strand-level fuzzy match of `extract_curriculum_content`
(main.py line 461): threshold 70. -/
def bestSubStrand (st : Strand) (sub_strand_name : String) : Option String :=
  find_best_match fuzz_ratio sub_strand_name (subStrandNames st.sub_strands) 70

/-- The strand object located by the exact lookup that follows the
strand fuzzy match (main.py lines 450–454), guarded by the Python
truthiness test `if not best_strand_match` (line 447). -/
def matchedStrand (c : Curriculum) (strand_name : String) : Option Strand :=
  match bestStrand c strand_name with
  | none => none
  | some b => if b = "" then none else c.strands.find? fun s => s.name.getD "" = b

/-- The sub-strand object located by the exact lookup that follows the
sub-strand fuzzy match (main.py lines 476–480), guarded by the
truthiness test `if not best_substrand_match` (line 463). -/
def matchedSubStrand (st : Strand) (sub_strand_name : String) : Option SubStrand :=
  match bestSubStrand st sub_strand_name with
  | none => none
  | some b => if b = "" then none else st.sub_strands.find? fun ss => ss.name.getD "" = b

/-- Translation of `extract_curriculum_content(curriculum, strand_name,
sub_strand_name)` (main.py lines 416–506). -/
def extract_curriculum_content (curriculum : Option Curriculum)
    (strand_name sub_strand_name : String) : ResolvedContent :=
  match curriculum with
  | none => empty_structure strand_name sub_strand_name
  | some c =>
    if c.strands.isEmpty then empty_structure strand_name sub_strand_name
    else
      match bestStrand c strand_name with
      | none => empty_structure strand_name sub_strand_name
      | some best_strand_match =>
        if best_strand_match = "" then empty_structure strand_name sub_strand_name
        else
          match c.strands.find? (fun s => s.name.getD "" = best_strand_match) with
          | none => empty_structure strand_name sub_strand_name
          | some matched_strand =>
            match bestSubStrand matched_strand sub_strand_name with
            | none => strand_only_structure best_strand_match sub_strand_name
            | some best_substrand_match =>
              if best_substrand_match = "" then
                strand_only_structure best_strand_match sub_strand_name
              else
                match matched_strand.sub_strands.find?
                    (fun ss => ss.name.getD "" = best_substrand_match) with
                | none => strand_only_structure best_strand_match sub_strand_name
                | some mss =>
                  resolved_structure best_strand_match best_substrand_match mss

/-! ## Subject terminology registry (main.py lines 45–299) -/

/-- One entry of `SUBJECT_TERMINOLOGY`; the optional `language` tag is
present only for the Kiswahili profile. -/
structure TerminologyProfile where
  action_verbs : List String
  key_terms : List String
  language_style : String
  example_outcomes : List String
  language : Option String := none
deriving DecidableEq, Repr, Inhabited

/-- The `SUBJECT_TERMINOLOGY` dictionary (main.py lines 45–299), in
insertion order (Python dicts preserve it). -/
def SUBJECT_TERMINOLOGY : List (String × TerminologyProfile) :=
  [ ("mathematics",
     { action_verbs := ["calculate", "solve", "compute", "derive", "prove", "simplify",
         "factorize", "graph", "plot", "measure", "estimate", "construct",
         "verify", "determine", "formulate", "apply"]
       key_terms := ["equation", "formula", "theorem", "proof", "variable", "constant",
         "function", "algorithm", "pattern", "relationship", "properties",
         "operations", "expressions", "inequalities", "coordinates", "ratio",
         "proportion", "percentage", "angle", "area", "volume", "perimeter"]
       language_style := "Use precise mathematical language with exact terminology. Include specific formulas, calculations, and step-by-step problem-solving approaches."
       example_outcomes := ["Calculate the area of composite shapes using appropriate formulas and show all working steps clearly",
         "Solve linear equations by applying inverse operations and verify solutions through substitution method"] }),
    ("biology",
     { action_verbs := ["observe", "classify", "identify", "dissect", "examine", "investigate",
         "analyze", "compare", "differentiate", "describe", "explain biological processes",
         "demonstrate", "relate", "predict", "hypothesize"]
       key_terms := ["organism", "cell", "tissue", "organ", "system", "species", "adaptation",
         "evolution", "ecosystem", "photosynthesis", "respiration", "metabolism",
         "reproduction", "genetics", "DNA", "protein", "enzyme", "membrane",
         "mitosis", "meiosis", "homeostasis", "biodiversity"]
       language_style := "Use scientific terminology with biological processes and systems. Focus on observation, experimentation, and understanding of living organisms."
       example_outcomes := ["Classify organisms into their taxonomic groups based on observable characteristics and structural features",
         "Explain the process of photosynthesis showing how plants convert light energy into chemical energy"] }),
    ("chemistry",
     { action_verbs := ["react", "combine", "separate", "test", "analyze", "synthesize",
         "balance equations", "calculate molarity", "observe reactions", "measure",
         "determine", "identify compounds", "predict products", "neutralize"]
       key_terms := ["atom", "molecule", "element", "compound", "reaction", "bond", "ion",
         "acid", "base", "pH", "solution", "solvent", "solute", "catalyst",
         "oxidation", "reduction", "mole", "molarity", "titration", "precipitation",
         "equilibrium", "energy", "exothermic", "endothermic"]
       language_style := "Use chemical terminology with focus on reactions, equations, and laboratory procedures. Include safety considerations and practical applications."
       example_outcomes := ["Balance chemical equations by applying the law of conservation of mass and verify atom counts",
         "Determine the pH of solutions using indicators and explain the relationship between hydrogen ion concentration"] }),
    ("physics",
     { action_verbs := ["measure", "calculate forces", "determine", "apply laws", "analyze motion",
         "investigate", "demonstrate", "explain phenomena", "compute", "predict",
         "verify", "experiment", "observe patterns", "derive formulas"]
       key_terms := ["force", "energy", "work", "power", "momentum", "velocity", "acceleration",
         "mass", "weight", "friction", "gravity", "pressure", "density", "motion",
         "electricity", "magnetism", "wave", "frequency", "wavelength", "circuit",
         "resistance", "current", "voltage", "heat", "temperature"]
       language_style := "Use precise physical terminology with focus on laws, principles, and quantitative relationships. Include mathematical calculations and SI units."
       example_outcomes := ["Calculate velocity and acceleration of moving objects by applying equations of motion with proper SI units",
         "Determine the work done by a force using the formula and explain energy transformations in the system"] }),
    ("geography",
     { action_verbs := ["locate", "map", "identify regions", "analyze patterns", "describe landscapes",
         "interpret", "compare", "explain processes", "investigate", "observe",
         "measure", "collect data", "draw maps", "evaluate", "assess"]
       key_terms := ["landform", "climate", "ecosystem", "region", "location", "migration",
         "urbanization", "population", "resources", "agriculture", "industry",
         "environment", "weathering", "erosion", "deposition", "plate tectonics",
         "latitude", "longitude", "altitude", "vegetation", "settlement"]
       language_style := "Use geographical terminology focusing on spatial relationships, environmental processes, and human-environment interactions."
       example_outcomes := ["Identify major landforms on topographic maps using contour lines and explain their formation processes clearly",
         "Analyze population distribution patterns in Kenya and explain factors influencing settlement in different regions"] }),
    ("history",
     { action_verbs := ["trace", "describe events", "analyze causes", "evaluate impact", "compare periods",
         "explain significance", "identify", "sequence", "interpret sources", "investigate",
         "examine", "relate", "assess", "discuss", "contextualize"]
       key_terms := ["era", "period", "civilization", "empire", "colonization", "independence",
         "revolution", "constitution", "governance", "society", "culture", "trade",
         "migration", "conflict", "treaty", "reform", "movement", "nationalism",
         "heritage", "archaeology", "chronology", "primary source", "secondary source"]
       language_style := "Use historical terminology with focus on chronology, causation, and significance. Include dates, events, and historical figures."
       example_outcomes := ["Trace the development of trade routes in pre-colonial Kenya and explain their economic and social impact",
         "Analyze the causes and effects of the Mau Mau uprising showing its significance in Kenya\x27s independence struggle"] }),
    ("kiswahili",
     { action_verbs := ["kusoma", "kuandika", "kueleza", "kufafanua", "kutambua", "kutumia",
         "kujadili", "kulinganisha", "kuchambua", "kuainisha", "kusimulia",
         "kutafsiri", "kuhutubia", "kuimba", "kucheza"]
       key_terms := ["sarufi", "nomino", "vitenzi", "vivumishi", "vihusishi", "tungo",
         "sentensi", "aya", "insha", "utunzi", "msemo", "methali", "vitendawili",
         "hadithi", "mashairi", "maana", "matumizi", "muktadha", "lugha",
         "mazungumzo", "hotuba", "maandishi"]
       language_style := "Tumia lugha ya Kiswahili sanifu. Zingatia sarufi sahihi, matumizi ya maneno, na ufahamu wa muktadha. Jumuisha mifano ya vitendawili, methali, na misemo."
       example_outcomes := ["Kutambua na kueleza aina mbalimbali za nomino katika sentensi zilizoandikwa kwa Kiswahili sanifu",
         "Kuandika insha ya kusimulia kwa kutumia lugha nzuri na kuzingatia mpangilio sahihi wa matukio"]
       language := some "kiswahili" }),
    ("english",
     { action_verbs := ["read", "write", "analyze", "interpret", "compose", "evaluate",
         "discuss", "compare", "summarize", "identify literary devices", "express",
         "present", "argue", "persuade", "narrate", "describe"]
       key_terms := ["grammar", "syntax", "vocabulary", "comprehension", "composition", "essay",
         "paragraph", "sentence", "phrase", "tense", "speech", "dialogue",
         "narrative", "poetry", "metaphor", "simile", "theme", "plot", "character",
         "tone", "style", "genre", "punctuation"]
       language_style := "Use proper English language terminology with focus on grammar, composition, and literary analysis. Include examples of correct usage."
       example_outcomes := ["Compose a well-structured essay using appropriate vocabulary and demonstrating correct grammar and punctuation throughout",
         "Analyze literary devices in a given text and explain their effect on meaning and reader engagement"] }),
    ("business",
     { action_verbs := ["calculate profit", "analyze markets", "develop strategies", "evaluate performance",
         "prepare accounts", "determine costs", "forecast", "budget", "market",
         "negotiate", "manage resources", "record transactions", "assess"]
       key_terms := ["profit", "loss", "revenue", "expenses", "capital", "assets", "liabilities",
         "market", "demand", "supply", "price", "competition", "entrepreneur",
         "investment", "budget", "accounting", "finance", "management", "marketing",
         "production", "trade", "economy", "business plan"]
       language_style := "Use business and commercial terminology with focus on practical applications, calculations, and real-world scenarios."
       example_outcomes := ["Calculate gross and net profit for a business using correct formulas and interpret financial performance indicators",
         "Develop a simple marketing strategy for a product by analyzing target market and identifying promotional methods"] }),
    ("agriculture",
     { action_verbs := ["plant", "cultivate", "harvest", "identify crops", "practice", "demonstrate techniques",
         "prepare soil", "control pests", "manage", "apply", "select", "maintain",
         "conserve", "improve", "assess crop health", "determine"]
       key_terms := ["crop", "livestock", "soil", "fertilizer", "irrigation", "pest", "disease",
         "harvest", "planting", "cultivation", "farm", "agriculture", "rotation",
         "organic matter", "nutrients", "yield", "breed", "pasture", "fodder",
         "conservation", "sustainability", "tool", "implement"]
       language_style := "Use agricultural terminology with practical focus on farming practices, crop management, and livestock care."
       example_outcomes := ["Demonstrate proper land preparation techniques and explain how soil structure affects crop growth and productivity",
         "Identify common crop pests and diseases by their symptoms and recommend appropriate organic control methods"] }),
    ("computer",
     { action_verbs := ["code", "program", "debug", "design", "create", "develop applications",
         "analyze algorithms", "implement", "test", "troubleshoot", "configure",
         "install", "operate", "process data", "network", "secure systems"]
       key_terms := ["algorithm", "program", "code", "software", "hardware", "data", "input",
         "output", "processing", "storage", "network", "internet", "database",
         "variable", "loop", "function", "syntax", "debugging", "application",
         "operating system", "file", "folder", "cybersecurity"]
       language_style := "Use computing terminology with focus on logical thinking, problem-solving, and practical ICT skills."
       example_outcomes := ["Write simple algorithms using pseudocode and flowcharts to solve logical problems with clear step-by-step instructions",
         "Create a basic program using appropriate programming constructs and test it to ensure correct functionality"] }),
    ("home science",
     { action_verbs := ["prepare", "cook", "sew", "demonstrate", "practice hygiene", "maintain",
         "manage", "budget", "select", "evaluate nutrition", "design", "create",
         "apply", "identify", "care for", "preserve"]
       key_terms := ["nutrition", "diet", "health", "hygiene", "cooking", "recipe", "ingredients",
         "meal planning", "food preservation", "sewing", "fabric", "pattern",
         "stitching", "household management", "budgeting", "childcare", "family",
         "cleanliness", "safety", "balanced diet", "nutrients"]
       language_style := "Use home economics terminology with focus on practical life skills, nutrition, and household management."
       example_outcomes := ["Prepare a balanced meal by selecting appropriate ingredients and applying proper cooking methods for nutrition retention",
         "Demonstrate basic sewing techniques to construct a simple garment using correct stitching and finishing methods"] }),
    ("cre",
     { action_verbs := ["explain teachings", "relate", "apply values", "discuss", "identify",
         "interpret", "demonstrate", "practice", "reflect", "compare",
         "describe", "analyze", "evaluate", "live by principles"]
       key_terms := ["faith", "prayer", "worship", "Bible", "scripture", "commandment",
         "covenant", "prophet", "salvation", "grace", "sin", "forgiveness",
         "love", "compassion", "justice", "moral", "ethics", "values",
         "Christian living", "church", "ministry", "testimony"]
       language_style := "Use religious and moral terminology with focus on biblical teachings, values, and Christian living."
       example_outcomes := ["Explain the Ten Commandments and demonstrate how to apply them in daily life situations showing moral understanding",
         "Discuss the importance of forgiveness in Christian teaching and relate it to personal relationships and community harmony"] }),
    ("ire",
     { action_verbs := ["recite", "explain teachings", "practice", "apply", "demonstrate",
         "discuss", "identify", "interpret", "relate", "observe",
         "memorize", "reflect", "compare", "describe Islamic principles"]
       key_terms := ["Quran", "Hadith", "Sunnah", "Iman", "Islam", "Tawheed", "Salah",
         "Zakah", "Sawm", "Hajj", "Prophet Muhammad (PBUH)", "Allah", "mosque",
         "faith", "worship", "prayer", "fasting", "charity", "pilgrimage",
         "Muslim", "Islamic values", "morals", "ethics"]
       language_style := "Use Islamic terminology with focus on Quranic teachings, Hadith, and Islamic values and practices."
       example_outcomes := ["Recite selected Surahs correctly and explain their meanings showing understanding of Quranic teachings and messages",
         "Explain the five pillars of Islam and demonstrate how Muslims practice them in daily life situations"] }) ]

/-- The generic default profile returned when no subject matches
(main.py lines 322–330). -/
def generic_guidance : TerminologyProfile :=
  { action_verbs := ["analyze", "evaluate", "create", "apply", "demonstrate", "explain",
      "investigate", "compare", "develop", "interpret", "construct"]
    key_terms := []
    language_style := "Use clear, precise academic language appropriate for the subject matter."
    example_outcomes := [] }

/-- The fuzzy lookup of `get_subject_guidance` (main.py line 314):
`find_best_match(subject_lower, available_subjects, threshold=75)`. -/
def guidance_fuzzy (subject : String) : Option String :=
  find_best_match fuzz_ratio (strTrim (strToLower subject))
    (SUBJECT_TERMINOLOGY.map Prod.fst) 75

/-- Translation of `get_subject_guidance(subject)` (main.py lines
301–330).  The dictionary indexing `SUBJECT_TERMINOLOGY[best_match]`
cannot fail because `best_match` is drawn from the key list; its Lean
counterpart supplies `generic_guidance` as an unreachable default. -/
def get_subject_guidance (subject : String) : TerminologyProfile :=
  let subject_lower := strTrim (strToLower subject)
  match SUBJECT_TERMINOLOGY.lookup subject_lower with
  | some p => p
  | none =>
    match guidance_fuzzy subject with
    | some best =>
      if best = "" then generic_guidance
      else (SUBJECT_TERMINOLOGY.lookup best).getD generic_guidance
    | none => generic_guidance

/-! ## Curriculum store (main.py lines 385–414) -/

/-- Contents of a file in the working directory: a curriculum document
that parses as valid JSON, or data that raises `json.JSONDecodeError`. -/
inductive FileContent where
  | valid (c : Curriculum)
  | invalid
deriving DecidableEq, Repr

/-- The working directory, as an association list from file name to
file content; the list order models the (fixed) `os.listdir` order. -/
abbrev CurriculumFS := List (String × FileContent)

/-- Translation of
`[f for f in os.listdir(".") if f.endswith("_curriculum.json")]`
(main.py line 397). -/
def curriculumFiles (fs : CurriculumFS) : List String :=
  (fs.map Prod.fst).filter fun f => strEndsWith f "_curriculum.json"

/-- Translation of
`[f.replace("_curriculum.json", "") for f in curriculum_files]`
(main.py line 399). -/
def availableSubjects (fs : CurriculumFS) : List String :=
  (curriculumFiles fs).map fun f => strReplace f "_curriculum.json" ""

/-- The subject-name fuzzy match of `load_curriculum` (main.py
line 400): threshold 75. -/
def load_curriculum_fuzzy (fs : CurriculumFS) (subject : String) : Option String :=
  find_best_match fuzz_ratio (strToLower subject) (availableSubjects fs) 75

/-- The `except FileNotFoundError` branch of `load_curriculum`
(main.py lines 395–411): enumerate curriculum files, fuzzy-match the
subject at threshold 75, and try to load the matched file; any failure
while loading it (missing or malformed) yields `none`. -/
def load_curriculum_fallback (fs : CurriculumFS) (subject : String) : Option Curriculum :=
  if (curriculumFiles fs).isEmpty then none
  else
    match load_curriculum_fuzzy fs subject with
    | some best =>
      if best = "" then none
      else
        match List.lookup (best ++ "_curriculum.json") fs with
        | some (FileContent.valid c) => some c
        | _ => none
    | none => none

/-- Translation of `load_curriculum(subject)` (main.py lines 385–414).
Opening the file named by the exact lowercased subject either succeeds
(`valid`), raises `json.JSONDecodeError` (`invalid`, caught at line 412
and answered with an immediate `None`), or raises `FileNotFoundError`
(absent, answered by the fuzzy fallback). -/
def load_curriculum (fs : CurriculumFS) (subject : String) : Option Curriculum :=
  match List.lookup (strToLower subject ++ "_curriculum.json") fs with
  | some (FileContent.valid c) => some c
  | some FileContent.invalid => none
  | none => load_curriculum_fallback fs subject

/-- The `has_curriculum_data` flag computed by `generate_lesson_plan`
(main.py lines 536–539): `curriculum is not None and
len(curriculum_content.get("topics", [])) > 0`, with `curriculum =
load_curriculum(request.subject)` and `curriculum_content =
extract_curriculum_content(curriculum, request.strand,
request.sub_strand)` (lines 519–527). -/
def has_curriculum_data (fs : CurriculumFS)
    (subject strand sub_strand : String) : Bool :=
  let curriculum := load_curriculum fs subject
  let curriculum_content := extract_curriculum_content curriculum strand sub_strand
  curriculum.isSome && decide (0 < curriculum_content.topics.length)

/-! ## Concrete instances used by witnesses and counterexamples -/

def ssW : SubStrand :=
  { name := some "Counting"
    topics := ["Whole numbers"]
    specific_learning_outcomes := ["count objects"]
    key_concepts := "cardinality"
    key_inquiry_questions := ["How do we count?"]
    suggested_learning_experiences := ["count stones"]
    core_competencies := ["numeracy"]
    values := ["diligence"] }

def stW : Strand := { name := some "Numbers", sub_strands := [ssW] }

def cW : Curriculum := { strands := [stW] }

/-- A store in which the exact file for subject `a_curriculum.jsonb` is
malformed while a close-by file is valid.  Because Python derives the
available subject names with `str.replace`, the malformed file
enumerates as subject `ab`, so the fuzzy fallback (had it run) would
pick the valid neighbouring file instead of retrying the malformed
one. -/
def fsCx : CurriculumFS :=
  [("a_curriculum.jsonb_curriculum.json", FileContent.invalid),
   ("a_curriculum:jsonb_curriculum.json", FileContent.valid cW)]

/-! ## Basic lemmas about `extractOne` and `find_best_match` -/

theorem extractOne_eq_none (score : String → String → ℚ) (q : String) :
    ∀ opts : List String, extractOne score q opts = none → opts = [] := by
  intro opts h
  cases opts with
  | nil => rfl
  | cons o rest =>
    unfold extractOne at h
    cases hr : extractOne score q rest <;> rw [hr] at h
    · simp at h
    · next p =>
      obtain ⟨b, s⟩ := p
      simp only [] at h
      by_cases hle : s ≤ score q o
      · rw [if_pos hle] at h; simp at h
      · rw [if_neg hle] at h; simp at h

theorem extractOne_eq_some (score : String → String → ℚ) (q : String) :
    ∀ (opts : List String) (b : String) (s : ℚ),
      extractOne score q opts = some (b, s) →
      score q b = s ∧ (∀ o ∈ opts, score q o ≤ s) ∧
      ∃ pre post, opts = pre ++ b :: post ∧ ∀ o ∈ pre, score q o < s := by
  intro opts
  induction opts with
  | nil => intro b s h; simp [extractOne] at h
  | cons o rest ih =>
    intro b s h
    unfold extractOne at h
    cases hr : extractOne score q rest <;> rw [hr] at h
    · have hrest : rest = [] := extractOne_eq_none score q rest hr
      subst hrest
      simp only [Option.some.injEq, Prod.mk.injEq] at h
      obtain ⟨rfl, rfl⟩ := h
      exact ⟨rfl, by simp, [], [], rfl, by simp⟩
    · next p =>
      obtain ⟨b', s'⟩ := p
      simp only [] at h
      obtain ⟨hsb', hall', pre', post', hsplit', hpre'⟩ := ih b' s' hr
      by_cases hle : s' ≤ score q o
      · rw [if_pos hle] at h
        simp only [Option.some.injEq, Prod.mk.injEq] at h
        obtain ⟨rfl, rfl⟩ := h
        refine ⟨rfl, ?_, [], rest, rfl, by simp⟩
        intro x hx
        rcases List.mem_cons.mp hx with hx | hx
        · subst hx; exact le_refl _
        · exact le_trans (hall' x hx) hle
      · rw [if_neg hle] at h
        simp only [Option.some.injEq, Prod.mk.injEq] at h
        obtain ⟨rfl, rfl⟩ := h
        refine ⟨hsb', ?_, o :: pre', post', by rw [hsplit']; simp, ?_⟩
        · intro x hx
          rcases List.mem_cons.mp hx with hx | hx
          · subst hx; exact le_of_lt (lt_of_not_le hle)
          · exact hall' x hx
        · intro x hx
          rcases List.mem_cons.mp hx with hx | hx
          · subst hx; exact lt_of_not_le hle
          · exact hpre' x hx

theorem find_best_match_nil (score : String → String → ℚ) (q : String) (t : ℚ) :
    find_best_match score q [] t = none := by
  simp [find_best_match]

theorem find_best_match_mem (score : String → String → ℚ)
    (q : String) (opts : List String) (t : ℚ) (b : String)
    (h : find_best_match score q opts t = some b) : b ∈ opts := by
  unfold find_best_match at h
  by_cases hc : q = "" ∨ opts = []
  · rw [if_pos hc] at h; simp at h
  · rw [if_neg hc] at h
    cases hx : extractOne score q opts <;> rw [hx] at h
    · simp at h
    · next p =>
      obtain ⟨b', s'⟩ := p
      simp only [] at h
      by_cases ht : t ≤ s'
      · rw [if_pos ht] at h
        simp only [Option.some.injEq] at h
        subst h
        obtain ⟨_, _, pre, post, hsplit, _⟩ := extractOne_eq_some score q opts b' s' hx
        rw [hsplit]
        simp
      · rw [if_neg ht] at h; simp at h

/-! ## Lemmas about the name candidate lists and the resolver -/

theorem strandNames_sound {l : List Strand} {n : String}
    (h : n ∈ strandNames l) : n ≠ "" ∧ ∃ s ∈ l, s.name = some n := by
  unfold strandNames at h
  obtain ⟨s, hs, hfn⟩ := List.mem_map.mp h
  have hfilt := List.mem_filter.mp hs
  have hne : s.name.getD "" ≠ "" := by simpa using hfilt.2
  constructor
  · rw [← hfn]; exact hne
  · refine ⟨s, hfilt.1, ?_⟩
    cases hn : s.name with
    | none => rw [hn] at hne; simp at hne
    | some v =>
      rw [hn] at hfn
      simp only [Option.getD_some] at hfn
      rw [hfn]

theorem subStrandNames_sound {l : List SubStrand} {n : String}
    (h : n ∈ subStrandNames l) : n ≠ "" ∧ ∃ ss ∈ l, ss.name = some n := by
  unfold subStrandNames at h
  obtain ⟨s, hs, hfn⟩ := List.mem_map.mp h
  have hfilt := List.mem_filter.mp hs
  have hne : s.name.getD "" ≠ "" := by simpa using hfilt.2
  constructor
  · rw [← hfn]; exact hne
  · refine ⟨s, hfilt.1, ?_⟩
    cases hn : s.name with
    | none => rw [hn] at hne; simp at hne
    | some v =>
      rw [hn] at hfn
      simp only [Option.getD_some] at hfn
      rw [hfn]

theorem bestStrand_strands_ne {c : Curriculum} {sn b : String}
    (h : bestStrand c sn = some b) : c.strands.isEmpty = false := by
  cases hs : c.strands with
  | nil =>
    exfalso
    unfold bestStrand at h
    rw [hs] at h
    simp only [strandNames, List.filter_nil, List.map_nil] at h
    rw [find_best_match_nil] at h
    exact Option.noConfusion h
  | cons a l => simp [hs]

/-- Exhaustive case analysis of `extract_curriculum_content` on a
present document: the result is the empty structure, the strand-only
structure for a fuzzy-matched strand, or the full structure copied from
a fuzzy-matched sub-strand of the located strand. -/
theorem extract_cases (c : Curriculum) (sn ssn : String) :
    extract_curriculum_content (some c) sn ssn = empty_structure sn ssn ∨
    (∃ b st, bestStrand c sn = some b ∧ b ∈ strandNames c.strands ∧
      c.strands.find? (fun s => s.name.getD "" = b) = some st ∧
      extract_curriculum_content (some c) sn ssn = strand_only_structure b ssn) ∨
    (∃ b st bss mss, bestStrand c sn = some b ∧ b ∈ strandNames c.strands ∧
      c.strands.find? (fun s => s.name.getD "" = b) = some st ∧
      bestSubStrand st ssn = some bss ∧ bss ∈ subStrandNames st.sub_strands ∧
      st.sub_strands.find? (fun ss => ss.name.getD "" = bss) = some mss ∧
      extract_curriculum_content (some c) sn ssn = resolved_structure b bss mss) := by
  by_cases he : c.strands.isEmpty
  · left; simp [extract_curriculum_content, he]
  · cases hb : bestStrand c sn with
    | none => left; simp [extract_curriculum_content, he, hb]
    | some b =>
      have hbmem : b ∈ strandNames c.strands :=
        find_best_match_mem _ _ _ _ _ hb
      have hbne : b ≠ "" := (strandNames_sound hbmem).1
      cases hf : c.strands.find? (fun s => s.name.getD "" = b) with
      | none => left; simp [extract_curriculum_content, he, hb, hbne, hf]
      | some st =>
        cases hss : bestSubStrand st ssn with
        | none =>
          right; left
          exact ⟨b, st, rfl, hbmem, hf,
            by simp [extract_curriculum_content, he, hb, hbne, hf, hss]⟩
        | some bss =>
          have hbssmem : bss ∈ subStrandNames st.sub_strands :=
            find_best_match_mem _ _ _ _ _ hss
          have hbssne : bss ≠ "" := (subStrandNames_sound hbssmem).1
          cases hf2 : st.sub_strands.find? (fun ss => ss.name.getD "" = bss) with
          | none =>
            right; left
            exact ⟨b, st, rfl, hbmem, hf,
              by simp [extract_curriculum_content, he, hb, hbne, hf, hss, hbssne, hf2]⟩
          | some mss =>
            right; right
            exact ⟨b, st, bss, mss, rfl, hbmem, hf, hss, hbssmem, hf2,
              by simp [extract_curriculum_content, he, hb, hbne, hf, hss, hbssne, hf2]⟩

theorem matchedStrand_eq_some {c : Curriculum} {sn : String} {st : Strand}
    (h : matchedStrand c sn = some st) :
    ∃ b, bestStrand c sn = some b ∧ b ≠ "" ∧
      c.strands.find? (fun s => s.name.getD "" = b) = some st ∧
      st.name.getD "" = b := by
  unfold matchedStrand at h
  cases hb : bestStrand c sn <;> rw [hb] at h
  · simp at h
  · next b =>
    simp only [] at h
    by_cases hbe : b = ""
    · rw [if_pos hbe] at h; simp at h
    · rw [if_neg hbe] at h
      refine ⟨b, rfl, hbe, h, ?_⟩
      simpa using List.find?_some h

theorem matchedSubStrand_eq_some {st : Strand} {ssn : String} {ss : SubStrand}
    (h : matchedSubStrand st ssn = some ss) :
    ∃ b, bestSubStrand st ssn = some b ∧ b ≠ "" ∧
      st.sub_strands.find? (fun x => x.name.getD "" = b) = some ss ∧
      ss.name.getD "" = b := by
  unfold matchedSubStrand at h
  cases hb : bestSubStrand st ssn <;> rw [hb] at h
  · simp at h
  · next b =>
    simp only [] at h
    by_cases hbe : b = ""
    · rw [if_pos hbe] at h; simp at h
    · rw [if_neg hbe] at h
      refine ⟨b, rfl, hbe, h, ?_⟩
      simpa using List.find?_some h

theorem extract_substrand_none_eq {c : Curriculum} {sn b : String} {st : Strand}
    (ssn : String)
    (hb : bestStrand c sn = some b) (hbne : b ≠ "")
    (hf : c.strands.find? (fun s => s.name.getD "" = b) = some st)
    (hss : bestSubStrand st ssn = none) :
    extract_curriculum_content (some c) sn ssn = strand_only_structure b ssn := by
  have he := bestStrand_strands_ne hb
  simp [extract_curriculum_content, he, hb, hbne, hf, hss]

theorem extract_full_eq {c : Curriculum} {sn b ssn bss : String}
    {st : Strand} {mss : SubStrand}
    (hb : bestStrand c sn = some b) (hbne : b ≠ "")
    (hf : c.strands.find? (fun s => s.name.getD "" = b) = some st)
    (hss : bestSubStrand st ssn = some bss) (hbssne : bss ≠ "")
    (hf2 : st.sub_strands.find? (fun ss => ss.name.getD "" = bss) = some mss) :
    extract_curriculum_content (some c) sn ssn = resolved_structure b bss mss := by
  have he := bestStrand_strands_ne hb
  simp [extract_curriculum_content, he, hb, hbne, hf, hss, hbssne, hf2]

/-! ## Claim theorems about the resolver -/

/-- C1: graceful degradation chain of `extract_curriculum_content`.
With no document the result is the empty structure echoing both
caller-supplied names; with a document whose strand fuzzy match
(threshold 70) fails, the same; with a matched strand whose sub-strand
fuzzy match fails, the result carries the matched strand name, echoes
the caller's sub-strand name, and has every content field empty. -/
theorem extract_graceful_degradation (sn ssn : String) (c : Curriculum) (st : Strand) :
    (extract_curriculum_content none sn ssn = empty_structure sn ssn) ∧
    (bestStrand c sn = none →
      extract_curriculum_content (some c) sn ssn = empty_structure sn ssn) ∧
    (matchedStrand c sn = some st → bestSubStrand st ssn = none →
      extract_curriculum_content (some c) sn ssn =
        strand_only_structure (st.name.getD "") ssn) := by
  refine ⟨rfl, ?_, ?_⟩
  · intro h
    by_cases he : c.strands.isEmpty <;> simp [extract_curriculum_content, he, h]
  · intro hms hss
    obtain ⟨b, hb, hbne, hf, hname⟩ := matchedStrand_eq_some hms
    rw [hname]
    exact extract_substrand_none_eq ssn hb hbne hf hss

theorem extract_graceful_degradation_witness :
    (extract_curriculum_content none "a" "b" = empty_structure "a" "b") ∧
    (extract_curriculum_content (some cW) "zzzz" "b" = empty_structure "zzzz" "b") ∧
    (extract_curriculum_content (some cW) "Numbers" "qqqq" =
      strand_only_structure (stW.name.getD "") "qqqq") :=
  ⟨(extract_graceful_degradation "a" "b" cW stW).1,
   (extract_graceful_degradation "zzzz" "b" cW stW).2.1 (by decide),
   (extract_graceful_degradation "Numbers" "qqqq" cW stW).2.2 (by decide) (by decide)⟩

/-- C2: the `strand` and `sub_strand` fields of the record returned by
`extract_curriculum_content` always carry a string — the canonical
matched name (an element of the document's candidate-name lists) or the
caller-supplied name verbatim; they are total fields, never absent. -/
theorem extract_names_total (curriculum : Option Curriculum) (sn ssn : String) :
    ((extract_curriculum_content curriculum sn ssn).strand = sn ∨
      ∃ c, curriculum = some c ∧
        (extract_curriculum_content curriculum sn ssn).strand ∈ strandNames c.strands) ∧
    ((extract_curriculum_content curriculum sn ssn).sub_strand = ssn ∨
      ∃ c st, curriculum = some c ∧ st ∈ c.strands ∧
        (extract_curriculum_content curriculum sn ssn).sub_strand ∈
          subStrandNames st.sub_strands) := by
  cases curriculum with
  | none => exact ⟨Or.inl rfl, Or.inl rfl⟩
  | some c =>
    rcases extract_cases c sn ssn with h | ⟨b, st, hb, hbmem, hf, h⟩ |
      ⟨b, st, bss, mss, hb, hbmem, hf, hss, hbssmem, hf2, h⟩
    · rw [h]; exact ⟨Or.inl rfl, Or.inl rfl⟩
    · rw [h]; exact ⟨Or.inr ⟨c, rfl, hbmem⟩, Or.inl rfl⟩
    · rw [h]
      exact ⟨Or.inr ⟨c, rfl, hbmem⟩,
        Or.inr ⟨c, st, rfl, List.mem_of_find?_eq_some hf, hbssmem⟩⟩

/-- C3: a sub-strand whose content is copied into the result is always
an element of the `sub_strands` sequence of the strand that was
independently resolved as the best-matching strand, and the result is
exactly the content of that sub-strand. -/
theorem extract_substrand_parent (c : Curriculum) (sn ssn : String)
    (st : Strand) (ss : SubStrand)
    (hst : matchedStrand c sn = some st)
    (hss : matchedSubStrand st ssn = some ss) :
    ss ∈ st.sub_strands ∧
    extract_curriculum_content (some c) sn ssn =
      resolved_structure (st.name.getD "") (ss.name.getD "") ss := by
  obtain ⟨b, hb, hbne, hf, hbname⟩ := matchedStrand_eq_some hst
  obtain ⟨bss, hbs, hbssne, hf2, hssname⟩ := matchedSubStrand_eq_some hss
  refine ⟨List.mem_of_find?_eq_some hf2, ?_⟩
  rw [hbname, hssname]
  exact extract_full_eq hb hbne hf hbs hbssne hf2

theorem extract_substrand_parent_witness :
    ssW ∈ stW.sub_strands ∧
    extract_curriculum_content (some cW) "Numbers" "Counting" =
      resolved_structure (stW.name.getD "") (ssW.name.getD "") ssW :=
  extract_substrand_parent cW "Numbers" "Counting" stW ssW (by decide) (by decide)

/-- C10: strand and sub-strand entries whose `name` key is missing or
empty are excluded from the fuzzy-match candidate lists, and an entry
returned as the matched strand or matched sub-strand always has a
present, non-empty name. -/
theorem extract_name_candidates (c : Curriculum) (sn ssn : String) :
    (∀ n ∈ strandNames c.strands, n ≠ "" ∧ ∃ s ∈ c.strands, s.name = some n) ∧
    (∀ (st : Strand), ∀ n ∈ subStrandNames st.sub_strands,
      n ≠ "" ∧ ∃ ss ∈ st.sub_strands, ss.name = some n) ∧
    (∀ st, matchedStrand c sn = some st → ∃ m, st.name = some m ∧ m ≠ "") ∧
    (∀ (st : Strand) (ss : SubStrand), matchedSubStrand st ssn = some ss →
      ∃ m, ss.name = some m ∧ m ≠ "") := by
  refine ⟨fun n hn => strandNames_sound hn, fun st n hn => subStrandNames_sound hn, ?_, ?_⟩
  · intro st hst
    obtain ⟨b, hb, hbne, hf, hname⟩ := matchedStrand_eq_some hst
    cases hn : st.name with
    | none => rw [hn] at hname; exact absurd hname.symm hbne
    | some v =>
      rw [hn] at hname
      simp only [Option.getD_some] at hname
      subst hname
      exact ⟨v, rfl, hbne⟩
  · intro st ss hss
    obtain ⟨b, hb, hbne, hf, hname⟩ := matchedSubStrand_eq_some hss
    cases hn : ss.name with
    | none => rw [hn] at hname; exact absurd hname.symm hbne
    | some v =>
      rw [hn] at hname
      simp only [Option.getD_some] at hname
      subst hname
      exact ⟨v, rfl, hbne⟩

theorem extract_name_candidates_witness :
    ∃ m, stW.name = some m ∧ m ≠ "" :=
  (extract_name_candidates cW "Numbers" "Counting").2.2.1 stW (by decide)

/-! ## Claim theorems about the matcher, the store and the flag -/

/-- C5: on a non-empty query and non-empty options list,
`find_best_match` singles out the first option attaining the maximal
score (ties broken by first occurrence: every earlier option scores
strictly lower); it returns that option exactly when its score is at
least the threshold (so a score equal to the threshold is accepted) and
no-match when the best score is below the threshold. -/
theorem find_best_match_spec (score : String → String → ℚ) (query : String)
    (options : List String) (threshold : ℚ)
    (hq : query ≠ "") (ho : options ≠ []) :
    ∃ best s pre post,
      options = pre ++ best :: post ∧
      score query best = s ∧
      (∀ o ∈ options, score query o ≤ s) ∧
      (∀ o ∈ pre, score query o < s) ∧
      (threshold ≤ s → find_best_match score query options threshold = some best) ∧
      (s < threshold → find_best_match score query options threshold = none) := by
  cases hx : extractOne score query options with
  | none => exact absurd (extractOne_eq_none score query options hx) ho
  | some p =>
    obtain ⟨b, s⟩ := p
    obtain ⟨hsb, hall, pre, post, hsplit, hpre⟩ :=
      extractOne_eq_some score query options b s hx
    have hcond : ¬(query = "" ∨ options = []) := by
      intro hc; rcases hc with hc | hc
      · exact hq hc
      · exact ho hc
    refine ⟨b, s, pre, post, hsplit, hsb, hall, hpre, ?_, ?_⟩
    · intro ht
      unfold find_best_match
      rw [if_neg hcond, hx]
      simp only []
      rw [if_pos ht]
    · intro hst
      unfold find_best_match
      rw [if_neg hcond, hx]
      simp only []
      rw [if_neg (not_le.mpr hst)]

theorem find_best_match_spec_witness :
    ∃ best s pre post,
      ["cot", "cat"] = pre ++ best :: post ∧
      fuzz_ratio "cat" best = s ∧
      (∀ o ∈ ["cot", "cat"], fuzz_ratio "cat" o ≤ s) ∧
      (∀ o ∈ pre, fuzz_ratio "cat" o < s) ∧
      ((70 : ℚ) ≤ s → find_best_match fuzz_ratio "cat" ["cot", "cat"] 70 = some best) ∧
      (s < 70 → find_best_match fuzz_ratio "cat" ["cot", "cat"] 70 = none) :=
  find_best_match_spec fuzz_ratio "cat" ["cot", "cat"] 70 (by decide) (by decide)

/-- C6: `find_best_match` on an empty query or an empty options list
returns no-match immediately, for every scorer (so no similarity score
can influence — or be required for — the result), as an ordinary return
value of the total function. -/
theorem find_best_match_empty_inputs (score : String → String → ℚ)
    (options : List String) (query : String) (threshold : ℚ) :
    find_best_match score "" options threshold = none ∧
    find_best_match score query [] threshold = none := by
  constructor
  · unfold find_best_match
    rw [if_pos (Or.inl rfl)]
  · unfold find_best_match
    rw [if_pos (Or.inr rfl)]

/-- C4: the `has_curriculum_data` flag of `generate_lesson_plan` is
true exactly when the loaded curriculum document is present and the
resolved content's topics list is non-empty; in every other combination
it is false. -/
theorem has_curriculum_data_iff (fs : CurriculumFS)
    (subject strand sub_strand : String) :
    has_curriculum_data fs subject strand sub_strand = true ↔
      ((load_curriculum fs subject).isSome = true ∧
        (extract_curriculum_content (load_curriculum fs subject)
          strand sub_strand).topics ≠ []) := by
  unfold has_curriculum_data
  rw [Bool.and_eq_true, decide_eq_true_eq]
  constructor
  · rintro ⟨h1, h2⟩
    exact ⟨h1, List.ne_nil_of_length_pos h2⟩
  · rintro ⟨h1, h2⟩
    exact ⟨h1, List.length_pos.mpr h2⟩

/-- C8: the threshold asymmetry across call sites: subject-file
resolution in `load_curriculum` and terminology resolution in
`get_subject_guidance` call `find_best_match` with threshold 75, while
strand and sub-strand resolution in `extract_curriculum_content` call
it with threshold 70. -/
theorem fuzzy_thresholds :
    (∀ (fs : CurriculumFS) (subject : String),
      load_curriculum_fuzzy fs subject =
        find_best_match fuzz_ratio (strToLower subject) (availableSubjects fs) 75) ∧
    (∀ subject : String,
      guidance_fuzzy subject =
        find_best_match fuzz_ratio (strTrim (strToLower subject))
          (SUBJECT_TERMINOLOGY.map Prod.fst) 75) ∧
    (∀ (c : Curriculum) (sn : String),
      bestStrand c sn = find_best_match fuzz_ratio sn (strandNames c.strands) 70) ∧
    (∀ (st : Strand) (ssn : String),
      bestSubStrand st ssn =
        find_best_match fuzz_ratio ssn (subStrandNames st.sub_strands) 70) :=
  ⟨fun _ _ => rfl, fun _ => rfl, fun _ _ => rfl, fun _ _ => rfl⟩

/-- C9: a subject that neither exactly matches a registry key (after
lowercasing and trimming) nor fuzzy-matches one at threshold 75 gets
the generic default profile: non-empty generic action verbs, empty key
terms, a generic language-style string, and empty example outcomes. -/
theorem get_subject_guidance_generic (subject : String)
    (hexact : SUBJECT_TERMINOLOGY.lookup (strTrim (strToLower subject)) = none)
    (hfuzzy : guidance_fuzzy subject = none) :
    get_subject_guidance subject = generic_guidance ∧
    generic_guidance.action_verbs ≠ [] ∧
    generic_guidance.key_terms = [] ∧
    generic_guidance.example_outcomes = [] := by
  refine ⟨?_, by decide, rfl, rfl⟩
  simp only [get_subject_guidance, hexact, hfuzzy]

theorem get_subject_guidance_generic_witness :
    get_subject_guidance "astrology" = generic_guidance ∧
    generic_guidance.action_verbs ≠ [] ∧
    generic_guidance.key_terms = [] ∧
    generic_guidance.example_outcomes = [] :=
  get_subject_guidance_generic "astrology" (by decide) (by decide)

/-- C7 (counterexample): the claim that an exact-named curriculum file
that exists but fails to parse is handled by the same fuzzy fallback as
an absent file is false: `load_curriculum` answers the parse failure
with an immediate no-document, although the fallback would have loaded
a valid document here.  (In `fsCx` the malformed file enumerates, via
`str.replace`, as subject `ab`, so the fallback fuzzy match at
threshold 75 picks the valid file `a_curriculum:jsonb_curriculum.json`
instead.) -/
theorem load_curriculum_invalid_no_fallback_cx :
    (List.lookup (strToLower "a_curriculum.jsonb" ++ "_curriculum.json") fsCx =
      some FileContent.invalid) ∧
    load_curriculum fsCx "a_curriculum.jsonb" = none ∧
    load_curriculum_fallback fsCx "a_curriculum.jsonb" = some cW ∧
    ¬(∀ (fs : CurriculumFS) (subject : String),
        List.lookup (strToLower subject ++ "_curriculum.json") fs =
          some FileContent.invalid →
        load_curriculum fs subject = load_curriculum_fallback fs subject) := by
  refine ⟨by decide, by decide, by decide, fun h => ?_⟩
  have hc := h fsCx "a_curriculum.jsonb" (by decide)
  rw [show load_curriculum fsCx "a_curriculum.jsonb" = none from by decide,
    show load_curriculum_fallback fsCx "a_curriculum.jsonb" = some cW from by decide] at hc
  exact Option.noConfusion hc

/-- C7 (amended): when the curriculum file named by the exact
lowercased subject exists but fails to parse, `load_curriculum` returns
no-document immediately, performing no fuzzy-match fallback; the
fallback (threshold 75 over the enumerated subjects) runs exactly when
that file is absent. -/
theorem load_curriculum_invalid_immediate_none
    (fs : CurriculumFS) (subject : String) :
    (List.lookup (strToLower subject ++ "_curriculum.json") fs =
        some FileContent.invalid →
      load_curriculum fs subject = none) ∧
    (List.lookup (strToLower subject ++ "_curriculum.json") fs = none →
      load_curriculum fs subject = load_curriculum_fallback fs subject) := by
  constructor
  · intro h
    unfold load_curriculum
    rw [h]
  · intro h
    unfold load_curriculum
    rw [h]

theorem load_curriculum_invalid_immediate_none_witness :
    load_curriculum [("math_curriculum.json", FileContent.invalid)] "math" = none ∧
    load_curriculum [] "math" = load_curriculum_fallback [] "math" :=
  ⟨(load_curriculum_invalid_immediate_none
      [("math_curriculum.json", FileContent.invalid)] "math").1 (by decide),
   (load_curriculum_invalid_immediate_none [] "math").2 (by decide)⟩

